import Mathlib

/-!
Shallow embedding of `src/libs_analyzer.py` (repository `LIBS_trigger`):
the `LIBSAnalyzer` GUI-automation controller for the SciAps Z300 LIBS
analyzer.  External effects (GUI clicks, the filesystem, `cv2` template
matching, the wall clock) are modelled as explicit oracles passed to the
operations; machine time is idealized the way the specification does
(each polling iteration advances the clock by exactly the 0.2 s sleep).
Python exceptions are modelled with `Except`; an operation returns the
pair (result, post-state) because a raised exception leaves the already
performed attribute mutations of the object in place.
-/

namespace LIBS

/-- Enumeration `AnalyzerStatus` (libs_analyzer.py lines 15-17). -/
inductive AnalyzerStatus where
  | IDLE
  | RUNNING
deriving DecidableEq, Repr

/-- The exceptions the code can raise, plus the two classified analysis
errors named by the specification (`SpectrumFileNotFound`,
`RangeOutOfData`) which the source never defines nor raises.
`timeOut` is `TimeOutError` (line 19), `deviceRunning` is
`DeviceRunningError` (line 25), `buttonNotFound` is `ButtonNotFoundError`
(line 31), `unknownButtonName` is `UnkonwnButtonNameError` (line 37);
`typeError` models Python's builtin `TypeError` (raised when unpacking
`found = None` in the locator), `indexError` models `IndexError` (empty
`np.where` result indexed in `find_all_peaks`), and `pyFileNotFound`
models the builtin `FileNotFoundError` (listing a missing directory, or
`pd.read_csv` on a path that is not a file, such as the empty string). -/
inductive LibsError where
  | timeOut
  | deviceRunning
  | buttonNotFound
  | unknownButtonName
  | typeError
  | indexError
  | pyFileNotFound
  | spectrumFileNotFound
  | rangeOutOfData
deriving DecidableEq, Repr

/-- One entry of the `self.buttons` dict (lines 78-119): a position
cache (`pos`, initially `None`), a located flag (`found`, initially
`False`) and the template image path. -/
structure BtnInfo where
  pos : Option (Nat × Nat)
  found : Bool
  img_path : String
deriving DecidableEq, Repr

/-- The mutable state of a `LIBSAnalyzer` instance (constructor,
lines 46-121).  `buttons` is the registry dict, kept as an association
list in insertion order (Python dicts preserve insertion order and the
code iterates over it).  `time_out` is the configured operation timeout
in seconds. -/
structure LIBSAnalyzer where
  cache_folder_path : String
  export_folder_path : String
  time_out : ℚ
  buttons : List (String × BtnInfo)
  status : AnalyzerStatus
  sample_name : String
deriving DecidableEq, Repr

/-- The eight registry keys in constructor insertion order, with the
default template image paths (lines 48-56 and 78-119). -/
def initButtons : List (String × BtnInfo) :=
  [("measure", ⟨none, false, "measure_button.png"⟩),
   ("sample_name", ⟨none, false, "sample_name_input.png"⟩),
   ("export", ⟨none, false, "export_button.png"⟩),
   ("separate_spectrum", ⟨none, false, "separate_spectrum_button.png"⟩),
   ("new_folder", ⟨none, false, "new_folder_button.png"⟩),
   ("export_finish", ⟨none, false, "export_finish_button.png"⟩),
   ("delete", ⟨none, false, "delete_button.png"⟩),
   ("sync", ⟨none, false, "sync_button.png"⟩)]

/-- A freshly constructed analyzer (lines 74-121): all buttons
unlocated, `status = IDLE`, `sample_name = ''`, default
`time_out = 15.0`. -/
def initAnalyzer (cache export_folder : String) : LIBSAnalyzer :=
  { cache_folder_path := cache
    export_folder_path := export_folder
    time_out := 15
    buttons := initButtons
    status := .IDLE
    sample_name := "" }

/-- Dictionary lookup `self.buttons[button_name]` (membership test and
access, lines 274-279). -/
def lookupButton (btns : List (String × BtnInfo)) (name : String) : Option BtnInfo :=
  (btns.find? (fun q => q.1 = name)).map Prod.snd

/-- Method `press_a_button` (lines 263-279).  It performs no attribute
writes: it either raises, or calls `pyautogui.click(pos)`.  The `ok`
value is the position handed to the click primitive (`none` would mean
clicking at the current mouse position, which `pyautogui` accepts). -/
def press_a_button (st : LIBSAnalyzer) (button_name : String) :
    Except LibsError (Option (Nat × Nat)) :=
  match lookupButton st.buttons button_name with
  | none => .error .unknownButtonName
  | some b =>
    if b.found = false then .error .buttonNotFound
    else .ok b.pos

/-- The method call `self.press_a_button(name)` seen as a state
transformer: the method mutates no field, so the post-state is the
pre-state. -/
def press_a_button_op (st : LIBSAnalyzer) (button_name : String) :
    Except LibsError (Option (Nat × Nat)) × LIBSAnalyzer :=
  (press_a_button st button_name, st)

/-- The completion-polling loop shared by `measure` (lines 148-154) and
`export` (lines 216-222):

    curr_t = time.time()
    while len(os.listdir(dir)) == n:
        self.sleep_func(0.2)
        elapsed = time.time() - curr_t
        if elapsed > self.time_out:
            raise TimeOutError()

`counts k` is the directory entry count observed by the k-th iteration's
`len(os.listdir(dir))`; each iteration sleeps 0.2 s, so after the k-th
iteration's sleep the elapsed wall-clock time is (k+1)·0.2. -/
def pollLoop (counts : Nat → Nat) (n : Nat) (time_out : ℚ) (k : Nat) :
    Except LibsError Unit :=
  if _h1 : counts k = n then
    if _h2 : time_out < ((k : ℚ) + 1) * (2 / 10) then .error .timeOut
    else pollLoop counts n time_out (k + 1)
  else .ok ()
termination_by (⌈5 * time_out⌉).toNat + 1 - k
decreasing_by
  have h5 : ((k : ℚ) + 1) ≤ 5 * time_out := by
    linarith [le_of_not_lt _h2]
  have hceil : (((k : ℤ) + 1 : ℤ) : ℚ) ≤ ((⌈5 * time_out⌉ : ℤ) : ℚ) := by
    push_cast
    exact h5.trans (Int.le_ceil _)
  have hz : ((k : ℤ) + 1) ≤ ⌈5 * time_out⌉ := by exact_mod_cast hceil
  omega

/-- Method `measure` (lines 123-158).  `counts 0` is the baseline
`n = len(os.listdir(self.cache_folder_path))` read before the button
press; `counts (k+1)` is the count observed by the k-th polling
iteration.  The initial `pyautogui.press('enter')` and the prints have
no effect on the controller state.  The `finally` block restores
`status = IDLE` on every exit path past the busy check. -/
def measure (counts : Nat → Nat) (st : LIBSAnalyzer) :
    Except LibsError Unit × LIBSAnalyzer :=
  if st.status ≠ AnalyzerStatus.IDLE then (.error .deviceRunning, st)
  else
    let st1 := { st with status := AnalyzerStatus.RUNNING }
    let n := counts 0
    let body : Except LibsError Unit := do
      let _ ← press_a_button st1 "measure"
      pollLoop (fun i => counts (i + 1)) n st.time_out 0
    (body, { st1 with status := AnalyzerStatus.IDLE })

/-- Method `export` (lines 160-226; `export` is a Lean keyword, hence
the name `export_run`).  `name_now` is the value of
`self._name_after_time()` at this call (the clock oracle).  Crucially
the code assigns `self.sample_name = self._name_after_time()` at line
171, before the `try` block, so the assignment survives every failure of
the body.  `counts 0` is the baseline export-directory count (line 174);
`counts (k+1)` the k-th polling observation.  The body presses, in
order, `sample_name`, `export`, `separate_spectrum`, `new_folder`,
`export_finish`, `delete`, `sync` (typing and `enter` key presses touch
no controller state), then polls.  The `finally` restores IDLE. -/
def export_run (name_now : String) (counts : Nat → Nat) (st : LIBSAnalyzer) :
    Except LibsError Unit × LIBSAnalyzer :=
  if st.status ≠ AnalyzerStatus.IDLE then (.error .deviceRunning, st)
  else
    let st1 := { st with status := AnalyzerStatus.RUNNING, sample_name := name_now }
    let n := counts 0
    let body : Except LibsError Unit := do
      let _ ← press_a_button st1 "sample_name"
      let _ ← press_a_button st1 "export"
      let _ ← press_a_button st1 "separate_spectrum"
      let _ ← press_a_button st1 "new_folder"
      let _ ← press_a_button st1 "export_finish"
      let _ ← press_a_button st1 "delete"
      let _ ← press_a_button st1 "sync"
      pollLoop (fun i => counts (i + 1)) n st.time_out 0
    (body, { st1 with status := AnalyzerStatus.IDLE })

/-- The filesystem as the analysis code sees it: `listDir p` is
`os.listdir(p)` (`none` = `FileNotFoundError` on a missing directory);
`readCsv p` is the parsed two-column (`wavelength`, `intensity`) content
of `pd.read_csv(p)` (`none` = no readable CSV file at `p`; in
particular the empty path `''` never names a file). -/
structure FS where
  listDir : String → Option (List String)
  readCsv : String → Option (List (ℚ × ℚ))

/-- Index of the first element satisfying `p`, i.e.
`np.where(p(x))[0][0]` before the final indexing (line 384):
`none` means the index set is empty and `[0]` raises `IndexError`. -/
def firstIdxP (p : ℚ → Bool) : List ℚ → Option Nat
  | [] => none
  | a :: l => if p a then some 0 else (firstIdxP p l).map (· + 1)

/-- Index of the last element satisfying `p`, i.e.
`np.where(p(x))[0][-1]` before the final indexing (line 385). -/
def lastIdxP (p : ℚ → Bool) : List ℚ → Option Nat
  | [] => none
  | a :: l =>
    match lastIdxP p l with
    | some j => some (j + 1)
    | none => if p a then some 0 else none

/-- `np.trapezoid(y, x)` over a list of (x, y) points: the sum of
(y[i+1]+y[i])·(x[i+1]-x[i])/2; 0 on fewer than two points. -/
def trapzP : List (ℚ × ℚ) → ℚ
  | [] => 0
  | [_] => 0
  | p :: q :: rest =>
    (q.2 + p.2) * (q.1 - p.1) / 2 + trapzP (q :: rest)

/-- The baseline-corrected area of line 387:
`np.trapezoid(y[s:e+1], x[s:e+1]) - (y[s] + y[e]) * (x[e] - x[s]) / 2`. -/
def peakAreaOn (data : List (ℚ × ℚ)) (start_idx stop_idx : Nat) : ℚ :=
  let seg := (data.drop start_idx).take (stop_idx + 1 - start_idx)
  let ps := data.getD start_idx (0, 0)
  let pe := data.getD stop_idx (0, 0)
  trapzP seg - (ps.2 + pe.2) * (pe.1 - ps.1) / 2

/-- The dict key string of line 388 (in Python,
the float formatting yields the label `'669.0 - 673.0'`). -/
def rangeLabel (start stop : ℚ) : String :=
  toString start ++ " - " ++ toString stop

/-- The configured wavelength ranges (line 380). -/
def cfgRanges : List (ℚ × ℚ) := [(669, 673)]

/-- The loop of lines 382-388 over the configured ranges, on parsed
data: select first/last indices for each range (an empty selection
raises `IndexError`) and record the baseline-corrected area under the
range's label, in range order. -/
def peaksFor (data : List (ℚ × ℚ)) :
    List (ℚ × ℚ) → Except LibsError (List (String × ℚ))
  | [] => .ok []
  | (start, stop) :: rest =>
    match firstIdxP (fun v => start ≤ v) (data.map Prod.fst) with
    | none => .error .indexError
    | some start_idx =>
      match lastIdxP (fun v => v ≤ stop) (data.map Prod.fst) with
      | none => .error .indexError
      | some stop_idx => do
        let tail ← peaksFor data rest
        .ok ((rangeLabel start stop, peakAreaOn data start_idx stop_idx) :: tail)

/-- Method `find_all_peaks` (lines 365-390): read the CSV at
`csv_file_path`, then integrate each configured range. -/
def find_all_peaks (fs : FS) (csv_file_path : String) :
    Except LibsError (List (String × ℚ)) :=
  match fs.readCsv csv_file_path with
  | none => .error .pyFileNotFound
  | some data => peaksFor data cfgRanges

/-- Python's `str.endswith`, stated on the character sequences (Lean's
`String.endsWith` goes through byte-position functions defined by
well-founded recursion, which the kernel cannot evaluate). -/
def pyEndsWith (s suffix : String) : Bool :=
  suffix.data.isSuffixOf s.data

/-- The body of `analyze`'s `try` block (lines 243-252) on the export
subfolder `folder`: list the folder (a missing folder raises
`FileNotFoundError`), take the first file ending in `'1.csv'` (else
`spec_path` stays `''`), and run `find_all_peaks` on that path. -/
def analyzeCore (fs : FS) (folder : String) :
    Except LibsError (List (String × ℚ)) :=
  match fs.listDir folder with
  | none => .error .pyFileNotFound
  | some files =>
    let spec_path :=
      match files.find? (fun f => pyEndsWith f "1.csv") with
      | some f => folder ++ "/" ++ f
      | none => ""
    find_all_peaks fs spec_path

/-- Method `analyze` (lines 228-261): busy check, then the subfolder
named `self.export_folder_path + '/' + self.sample_name` is analyzed;
the `finally` restores IDLE on every exit path past the busy check. -/
def analyze (fs : FS) (st : LIBSAnalyzer) :
    Except LibsError (List (String × ℚ)) × LIBSAnalyzer :=
  if st.status ≠ AnalyzerStatus.IDLE then (.error .deviceRunning, st)
  else
    let st1 := { st with status := AnalyzerStatus.RUNNING }
    (analyzeCore fs (st.export_folder_path ++ "/" ++ st.sample_name),
     { st1 with status := AnalyzerStatus.IDLE })

/-- The loop of `find_all_buttons` (lines 302-305) over the registry
entries in insertion order.  `locate img` is the outcome of
`self.locate_button_multi_scale(img)` (`none` = the locator raised).
A raise aborts the loop in place: already processed entries keep their
updates, the failing entry and the remaining ones are untouched. -/
def findButtonsList (locate : String → Option (Nat × Nat)) :
    List (String × BtnInfo) → Except LibsError Unit × List (String × BtnInfo)
  | [] => (.ok (), [])
  | (nm, b) :: rest =>
    match locate b.img_path with
    | none => (.error .typeError, (nm, b) :: rest)
    | some p =>
      let b2 : BtnInfo := { b with pos := some p, found := true }
      let res := findButtonsList locate rest
      (res.1, (nm, b2) :: res.2)

/-- Method `find_all_buttons` (lines 298-305): locate every registered
button, overwriting `pos` and setting `found := true` entry by entry.
No busy check and no status change. -/
def find_all_buttons (locate : String → Option (Nat × Nat)) (st : LIBSAnalyzer) :
    Except LibsError Unit × LIBSAnalyzer :=
  let res := findButtonsList locate st.buttons
  (res.1, { st with buttons := res.2 })

/-!
The multi-scale visual locator, `locate_button_multi_scale`
(lines 307-363).  The `cv2`/screen side is abstracted by oracles:
`w × h` are the grayscale screenshot dimensions (width, height),
`th × tw` the edge-detected template's height and width, and
`score s` / `loc s` the `max_val` / `max_loc` that
`cv2.minMaxLoc(cv2.matchTemplate(...))` reports at scale `s`
(`max_loc` is a pixel coordinate, hence `Nat × Nat`).  Python's `int()`
on the nonnegative quantities involved is the floor.
-/

/-- The evaluated scale sequence `np.linspace(0.2, 2.0, 10)[::-1]`
(line 326), as exact rationals in descending order. -/
def scales : List ℚ :=
  [2, 9/5, 8/5, 7/5, 6/5, 1, 4/5, 3/5, 2/5, 1/5]

/-- Dimensions of `imutils.resize(gray, width=int(gray.shape[1]*scale))`
(line 329): the target width is `int(w * scale)` and `imutils.resize`
scales the height by the same ratio, `int(h * (w2 / w))`. -/
def resizedDims (w h : Nat) (scale : ℚ) : Nat × Nat :=
  let w2 := (⌊(w : ℚ) * scale⌋).toNat
  let h2 := (⌊(h : ℚ) * ((w2 : ℚ) / (w : ℚ))⌋).toNat
  (w2, h2)

/-- The bookkeeping triple `found = (max_val, max_loc, r)` of
lines 351-352. -/
structure Cand where
  max_val : ℚ
  max_loc : Nat × Nat
  r : ℚ
deriving DecidableEq, Repr

/-- The candidate recorded at scale `s`:
`(max_val, max_loc, r)` with `r = gray.shape[1] / resized.shape[1]`
(line 330). -/
def candAt (w h : Nat) (score : ℚ → ℚ) (loc : ℚ → Nat × Nat) (s : ℚ) : Cand :=
  ⟨score s, loc s, (w : ℚ) / (((resizedDims w h s).1 : ℚ))⟩

/-- The `for scale in ...` loop (lines 326-352): at each scale, break
out if the resized image is smaller than the template in either
dimension; otherwise record the candidate when `found is None or
max_val > found[0]`. -/
def locateLoop (w h th tw : Nat) (score : ℚ → ℚ) (loc : ℚ → Nat × Nat) :
    List ℚ → Option Cand → Option Cand
  | [], found => found
  | s :: rest, found =>
    if (resizedDims w h s).2 < th ∨ (resizedDims w h s).1 < tw then found
    else
      let c := candAt w h score loc s
      let found2 :=
        match found with
        | none => some c
        | some f => if f.max_val < c.max_val then some c else some f
      locateLoop w h th tw score loc rest found2

/-- Method `locate_button_multi_scale` (lines 307-363) after the oracle
abstraction.  Line 355, `(_, max_loc, r) = found`, unpacks the
bookkeeping variable without checking it was ever set: when the loop
recorded no candidate, `found` is still `None` and Python raises
`TypeError` (`cannot unpack non-iterable NoneType object`), modelled by
`.error .typeError`.  Otherwise the winning location is mapped back to
full resolution and the bounding-box midpoint is returned
(lines 356-363; `//` on these nonnegative ints is `Nat` division). -/
def locate_button_multi_scale (w h th tw : Nat)
    (score : ℚ → ℚ) (loc : ℚ → Nat × Nat) : Except LibsError (Nat × Nat) :=
  match locateLoop w h th tw score loc scales none with
  | none => .error .typeError
  | some f =>
    let start_x := (⌊(f.max_loc.1 : ℚ) * f.r⌋).toNat
    let start_y := (⌊(f.max_loc.2 : ℚ) * f.r⌋).toNat
    let end_x := (⌊((f.max_loc.1 + tw : ℕ) : ℚ) * f.r⌋).toNat
    let end_y := (⌊((f.max_loc.2 + th : ℕ) : ℚ) * f.r⌋).toNat
    .ok ((start_x + end_x) / 2, (start_y + end_y) / 2)

/-- Whether scale `s` survives the break test of line 333. -/
def scaleOk (w h th tw : Nat) (s : ℚ) : Bool :=
  !(decide ((resizedDims w h s).2 < th ∨ (resizedDims w h s).1 < tw))

/-- The scales the loop actually evaluates: the prefix of `scales`
before the first one failing the size test ("stop as soon as the
resized image is smaller than the template in either dimension"). -/
def evaluatedScales (w h th tw : Nat) : List ℚ :=
  scales.takeWhile (scaleOk w h th tw)

/-- Modelled from the spec's words for the selection rule: the first
candidate initializes the running best and only a strictly greater
score replaces it, so the result is the earliest candidate of maximal
score. -/
def firstMaxCand : List Cand → Option Cand
  | [] => none
  | c :: rest =>
    match firstMaxCand rest with
    | none => some c
    | some d => if c.max_val < d.max_val then some d else some c

/-! ## Sample concrete states used by witnesses and counterexamples -/

/-- A freshly constructed analyzer (all buttons unlocated, IDLE). -/
def st0 : LIBSAnalyzer := initAnalyzer "cache" "exp"

/-- An analyzer caught in the RUNNING state. -/
def stRun : LIBSAnalyzer := { st0 with status := .RUNNING }

/-- An analyzer whose buttons have all been located, with a short
timeout (0.2 s) so that concrete polling runs stay small. -/
def stReady : LIBSAnalyzer :=
  { st0 with
    time_out := 2/10
    buttons := initButtons.map (fun q => (q.1, { q.2 with pos := some (7, 9), found := true })) }

/-- A locate oracle that finds everything at a fixed position. -/
def locAll : String → Option (Nat × Nat) := fun _ => some (3, 4)

/-! ## Claim C1 -/

/-- C1: while `RunState = RUNNING`, each of `measure`, `export` and
`analyze` fails immediately with `DeviceRunningError` and returns the
controller state completely unchanged. -/
theorem claim_C1_busy_rejects (st : LIBSAnalyzer)
    (h : st.status = AnalyzerStatus.RUNNING) :
    (∀ counts, measure counts st = (.error .deviceRunning, st)) ∧
    (∀ nm counts, export_run nm counts st = (.error .deviceRunning, st)) ∧
    (∀ fs, analyze fs st = (.error .deviceRunning, st)) := by
  refine ⟨fun counts => ?_, fun nm counts => ?_, fun fs => ?_⟩ <;>
    simp [measure, export_run, analyze, h]

/-- Witness for C1 at a concrete RUNNING analyzer. -/
theorem claim_C1_busy_rejects_witness :
    stRun.status = AnalyzerStatus.RUNNING ∧
    measure (fun _ => 0) stRun = (.error .deviceRunning, stRun) ∧
    export_run "2024_01_01_00_00_00" (fun _ => 0) stRun
      = (.error .deviceRunning, stRun) := by
  refine ⟨rfl, ?_, ?_⟩
  · exact (claim_C1_busy_rejects stRun rfl).1 (fun _ => 0)
  · exact (claim_C1_busy_rejects stRun rfl).2.1 "2024_01_01_00_00_00" (fun _ => 0)

/-! ## Claim C2 -/

/-- C2: any run of `measure`, `export` or `analyze` that passes the busy
check leaves `RunState = IDLE` when it returns, whatever the oracles do
(success, timeout, press failure, missing files): the `finally` block is
unconditional. -/
theorem claim_C2_guard_release (st : LIBSAnalyzer)
    (h : st.status = AnalyzerStatus.IDLE) :
    (∀ counts, ((measure counts st).2).status = AnalyzerStatus.IDLE) ∧
    (∀ nm counts, ((export_run nm counts st).2).status = AnalyzerStatus.IDLE) ∧
    (∀ fs, ((analyze fs st).2).status = AnalyzerStatus.IDLE) := by
  refine ⟨fun counts => ?_, fun nm counts => ?_, fun fs => ?_⟩ <;>
    simp [measure, export_run, analyze, h]

/-- Witness for C2: a concrete IDLE analyzer whose measure run fails
(button never located) still ends IDLE, and so does a timing-out
export. -/
theorem claim_C2_guard_release_witness :
    ((measure (fun _ => 0) st0).2).status = AnalyzerStatus.IDLE ∧
    ((export_run "2024_01_01_00_00_00" (fun _ => 0) st0).2).status
      = AnalyzerStatus.IDLE ∧
    ((analyze ⟨fun _ => none, fun _ => none⟩ st0).2).status
      = AnalyzerStatus.IDLE := by
  refine ⟨?_, ?_, ?_⟩
  · exact (claim_C2_guard_release st0 rfl).1 (fun _ => 0)
  · exact (claim_C2_guard_release st0 rfl).2.1 "2024_01_01_00_00_00" (fun _ => 0)
  · exact (claim_C2_guard_release st0 rfl).2.2 ⟨fun _ => none, fun _ => none⟩

/-! ## Claim C10 (frame conditions) -/

/-- `find_all_buttons` never adds or removes registry keys, in any
outcome (also when the locator raises part-way through). -/
lemma findButtonsList_keys (locate : String → Option (Nat × Nat)) :
    ∀ l : List (String × BtnInfo),
      ((findButtonsList locate l).2).map Prod.fst = l.map Prod.fst := by
  intro l
  induction l with
  | nil => simp [findButtonsList]
  | cons q rest ih =>
    obtain ⟨nm, b⟩ := q
    cases hl : locate b.img_path <;> simp [findButtonsList, hl, ih]

/-- C10: frame conditions of the five operations.  `measure` and
`analyze` write neither `sample_name` nor any part of the button
registry; `export` never writes the registry; `press_a_button` writes
no field at all; `find_all_buttons` preserves the key set and
`sample_name`.  In particular every operation preserves the set of
registered control names. -/
theorem claim_C10_frame :
    (∀ counts st, ((measure counts st).2).sample_name = st.sample_name ∧
       ((measure counts st).2).buttons = st.buttons) ∧
    (∀ nm counts st, ((export_run nm counts st).2).buttons = st.buttons) ∧
    (∀ fs st, ((analyze fs st).2).sample_name = st.sample_name ∧
       ((analyze fs st).2).buttons = st.buttons) ∧
    (∀ st name, (press_a_button_op st name).2 = st) ∧
    (∀ locate st,
       ((find_all_buttons locate st).2).buttons.map Prod.fst
           = st.buttons.map Prod.fst ∧
       ((find_all_buttons locate st).2).sample_name = st.sample_name) := by
  refine ⟨fun counts st => ?_, fun nm counts st => ?_, fun fs st => ?_,
          fun st name => rfl, fun locate st => ?_⟩
  · by_cases h : st.status = AnalyzerStatus.IDLE <;> simp [measure, h]
  · by_cases h : st.status = AnalyzerStatus.IDLE <;> simp [export_run, h]
  · by_cases h : st.status = AnalyzerStatus.IDLE <;> simp [analyze, h]
  · exact ⟨findButtonsList_keys locate st.buttons, rfl⟩

/-! ## Claim C8 -/

/-- When the `find_all_buttons` loop completes without a locator
failure, every entry of the updated registry has `found = true`. -/
lemma findButtonsList_ok_found (locate : String → Option (Nat × Nat)) :
    ∀ l : List (String × BtnInfo), (findButtonsList locate l).1 = .ok () →
      ∀ q ∈ (findButtonsList locate l).2, q.2.found = true := by
  intro l
  induction l with
  | nil => simp [findButtonsList]
  | cons q rest ih =>
    obtain ⟨nm, b⟩ := q
    cases hl : locate b.img_path with
    | none => simp [findButtonsList, hl]
    | some p =>
      intro hok q hq
      simp only [findButtonsList, hl, List.mem_cons] at hok hq
      rcases hq with hq | hq
      · simp [hq]
      · exact ih hok q hq

/-- A successful `lookupButton` names a key of the registry. -/
lemma lookupButton_mem_keys {btns : List (String × BtnInfo)} {name : String}
    {b : BtnInfo} (h : lookupButton btns name = some b) :
    name ∈ btns.map Prod.fst := by
  unfold lookupButton at h
  obtain ⟨q, hq, _hqb⟩ := Option.map_eq_some'.mp h
  have hmem := List.mem_of_find?_eq_some hq
  have hp := List.find?_some hq
  have hname : q.1 = name := by simpa using hp
  exact hname ▸ List.mem_map_of_mem Prod.fst hmem

/-- A key of the registry has a successful `lookupButton`, whose value
is an entry of the registry. -/
lemma lookupButton_of_mem_keys {btns : List (String × BtnInfo)} {name : String}
    (h : name ∈ btns.map Prod.fst) :
    ∃ b, lookupButton btns name = some b ∧ (name, b) ∈ btns := by
  induction btns with
  | nil => simp at h
  | cons q rest ih =>
    by_cases hq : q.1 = name
    · refine ⟨q.2, ?_, ?_⟩
      · simp [lookupButton, List.find?, hq]
      · simp [← hq]
    · simp only [List.map_cons, List.mem_cons] at h
      rcases h with h | h
      · exact absurd h.symm hq
      · obtain ⟨b, hb, hbm⟩ := ih h
        refine ⟨b, ?_, List.mem_cons_of_mem q hbm⟩
        simp only [lookupButton, List.find?, hq] at hb ⊢
        simp [hq, hb]

/-- C8: `press_a_button` fails with `UnkonwnButtonNameError` on an
unregistered name, fails with `ButtonNotFoundError` on a registered but
unlocated control, and otherwise hands the control's cached position to
the click primitive; and after a `find_all_buttons` run that returns
success, every registered name presses without error. -/
theorem claim_C8_press_contract :
    (∀ st name, lookupButton st.buttons name = none →
       press_a_button st name = .error .unknownButtonName) ∧
    (∀ st name b, lookupButton st.buttons name = some b → b.found = false →
       press_a_button st name = .error .buttonNotFound) ∧
    (∀ st name b, lookupButton st.buttons name = some b → b.found = true →
       press_a_button st name = .ok b.pos) ∧
    (∀ locate st, (find_all_buttons locate st).1 = .ok () →
       ∀ name, name ∈ st.buttons.map Prod.fst →
         ∃ p, press_a_button ((find_all_buttons locate st).2) name = .ok p) := by
  refine ⟨fun st name h => by simp [press_a_button, h],
          fun st name b h hf => by simp [press_a_button, h, hf],
          fun st name b h hf => by simp [press_a_button, h, hf],
          fun locate st hok name hname => ?_⟩
  have hkey : name ∈ ((find_all_buttons locate st).2).buttons.map Prod.fst := by
    rw [show ((find_all_buttons locate st).2).buttons
          = (findButtonsList locate st.buttons).2 from rfl]
    rw [findButtonsList_keys]
    exact hname
  obtain ⟨b, hb, hbm⟩ := lookupButton_of_mem_keys hkey
  have hfound : b.found = true :=
    findButtonsList_ok_found locate st.buttons hok (name, b) hbm
  exact ⟨b.pos, by simp [press_a_button, hb, hfound]⟩

/-- Witness for C8: on a fresh analyzer, an unknown name and a
never-located control fail with the two classified errors, and after a
successful `find_all_buttons` the `measure` control presses fine. -/
theorem claim_C8_press_contract_witness :
    press_a_button st0 "bogus" = .error .unknownButtonName ∧
    press_a_button st0 "measure" = .error .buttonNotFound ∧
    (∃ p, press_a_button ((find_all_buttons locAll st0).2) "measure" = .ok p) := by
  refine ⟨?_, ?_, ?_⟩
  · exact claim_C8_press_contract.1 st0 "bogus" (by decide)
  · exact claim_C8_press_contract.2.1 st0 "measure"
      ⟨none, false, "measure_button.png"⟩ (by decide) rfl
  · exact claim_C8_press_contract.2.2.2 locAll st0 (by rfl) "measure" (by decide)

/-! ## Claim C4 -/

/-- Characterization of the polling loop: starting at iteration `k`, it
returns success iff some later observation differs from the baseline
and every earlier observation both equals the baseline and falls within
the timeout budget. -/
lemma pollLoop_ok_iff (counts : Nat → Nat) (n : Nat) (t : ℚ) :
    ∀ k, pollLoop counts n t k = .ok () ↔
      ∃ m, k ≤ m ∧ counts m ≠ n ∧
        ∀ j, k ≤ j → j < m →
          (counts j = n ∧ ((j : ℚ) + 1) * (2 / 10) ≤ t) := by
  intro k
  induction k using pollLoop.induct counts n t with
  | case1 k h1 h2 =>
    rw [pollLoop]
    rw [dif_pos h1, dif_pos h2]
    apply iff_of_false
    · simp
    · rintro ⟨m, hkm, hm, hj⟩
      have hkne : k ≠ m := fun he => hm (he ▸ h1)
      have hklt : k < m := lt_of_le_of_ne hkm hkne
      have := (hj k le_rfl hklt).2
      linarith
  | case2 k h1 h2 ih =>
    rw [pollLoop]
    rw [dif_pos h1, dif_neg h2]
    rw [ih]
    constructor
    · rintro ⟨m, hkm, hm, hj⟩
      refine ⟨m, le_trans (Nat.le_succ k) hkm, hm, fun j hkj hjm => ?_⟩
      rcases Nat.eq_or_lt_of_le hkj with rfl | hlt
      · exact ⟨h1, le_of_not_lt h2⟩
      · exact hj j hlt hjm
    · rintro ⟨m, hkm, hm, hj⟩
      have hkne : k ≠ m := fun he => hm (he ▸ h1)
      have hklt : k < m := lt_of_le_of_ne hkm hkne
      exact ⟨m, hklt, hm,
        fun j hk1j hjm => hj j (le_trans (Nat.le_succ k) hk1j) hjm⟩
  | case3 k h1 =>
    rw [pollLoop]
    rw [dif_neg h1]
    simp only [true_iff]
    exact ⟨k, le_rfl, h1, fun j hkj hjk => absurd (lt_of_le_of_lt hkj hjk) (lt_irrefl k)⟩

/-- If the directory count never changes from the baseline, the polling
loop fails with `TimeOutError` (for every timeout value). -/
lemma pollLoop_const_timeout (counts : Nat → Nat) (n : Nat) (t : ℚ)
    (hconst : ∀ j, counts j = n) :
    ∀ k, pollLoop counts n t k = .error .timeOut := by
  intro k
  induction k using pollLoop.induct counts n t with
  | case1 k h1 h2 => rw [pollLoop]; rw [dif_pos h1, dif_pos h2]
  | case2 k h1 h2 ih => rw [pollLoop]; rw [dif_pos h1, dif_neg h2]; exact ih
  | case3 k h1 => exact absurd (hconst k) h1

/-- Once past the busy check with a located measure button, the result
of `measure` is exactly the polling loop's outcome on the shifted
observation stream (baseline `counts 0`, k-th poll `counts (k+1)`). -/
lemma measure_poll (counts : Nat → Nat) (st : LIBSAnalyzer)
    (h : st.status = AnalyzerStatus.IDLE)
    (b : BtnInfo) (hb : lookupButton st.buttons "measure" = some b)
    (hf : b.found = true) :
    (measure counts st).1
      = pollLoop (fun i => counts (i + 1)) (counts 0) st.time_out 0 := by
  simp only [measure, press_a_button, h, hb, hf]
  rfl

/-- An observation stream whose count drops from the baseline 5 to 0:
the directory lost entries instead of gaining one. -/
def countsDec : Nat → Nat := fun k => if k = 0 then 5 else 0

/-- Counterexample to C4 as stated: on `stReady`, `measure` returns
success on the stream `countsDec` although the polled count never rose
above the recorded baseline — it dropped from 5 to 0.  The loop exits
on any change (`len(os.listdir(...)) == n` becoming false), not only on
an increase. -/
theorem claim_C4_counterexample :
    (measure countsDec stReady).1 = .ok () ∧
    countsDec 0 = 5 ∧ countsDec 1 = 0 := by
  refine ⟨?_, rfl, rfl⟩
  rw [measure_poll countsDec stReady rfl
        ⟨some (7, 9), true, "measure_button.png"⟩ (by decide) rfl]
  rw [pollLoop]
  simp [countsDec]

/-- C4 amended ("increased above" → "changed from"): for every run of
`measure` whose button click succeeds, the workflow polls the cache
count at a fixed 0.2 s interval and returns success exactly when some
polled count differs from the recorded baseline with all earlier polls
equal to the baseline and within the timeout budget; if the count never
changes from the baseline, it fails with `TimeOutError`. -/
theorem claim_C4_amended_poll (counts : Nat → Nat) (st : LIBSAnalyzer)
    (h : st.status = AnalyzerStatus.IDLE)
    (b : BtnInfo) (hb : lookupButton st.buttons "measure" = some b)
    (hf : b.found = true) :
    ((measure counts st).1 = .ok () ↔
      ∃ m, counts (m + 1) ≠ counts 0 ∧
        ∀ j, j < m →
          (counts (j + 1) = counts 0 ∧
           ((j : ℚ) + 1) * (2 / 10) ≤ st.time_out)) ∧
    ((∀ k, counts (k + 1) = counts 0) →
      (measure counts st).1 = .error .timeOut) := by
  rw [measure_poll counts st h b hb hf]
  constructor
  · rw [pollLoop_ok_iff]
    constructor
    · rintro ⟨m, _, hm, hj⟩
      exact ⟨m, hm, fun j hjm => hj j (Nat.zero_le j) hjm⟩
    · rintro ⟨m, hm, hj⟩
      exact ⟨m, Nat.zero_le m, hm, fun j _ hjm => hj j hjm⟩
  · intro hconst
    exact pollLoop_const_timeout _ _ _ hconst 0

/-- Witness for the amended C4 at a concrete run: on `stReady` with the
dropping stream the iff instantiates, and a constant stream times
out. -/
theorem claim_C4_amended_poll_witness :
    ((measure countsDec stReady).1 = .ok () ↔
      ∃ m, countsDec (m + 1) ≠ countsDec 0 ∧
        ∀ j, j < m →
          (countsDec (j + 1) = countsDec 0 ∧
           ((j : ℚ) + 1) * (2 / 10) ≤ stReady.time_out)) ∧
    (measure (fun _ => 3) stReady).1 = .error .timeOut := by
  constructor
  · exact (claim_C4_amended_poll countsDec stReady rfl
      ⟨some (7, 9), true, "measure_button.png"⟩ (by decide) rfl).1
  · exact (claim_C4_amended_poll (fun _ => 3) stReady rfl
      ⟨some (7, 9), true, "measure_button.png"⟩ (by decide) rfl).2 (fun _ => rfl)

/-! ## Claim C9 -/

/-- An analyzer that currently remembers the sample name "A", with no
button ever located (so the next export fails at its first press). -/
def stA : LIBSAnalyzer := { st0 with sample_name := "A" }

/-- A filesystem that only contains the export subfolder of sample "B",
holding a spectrum file that parses to an empty series. -/
def fsB : FS :=
  { listDir := fun p => if p = "exp/B" then some ["a1.csv"] else none
    readCsv := fun p => if p = "exp/B/a1.csv" then some [] else none }

/-- Counterexample to C9 as stated: the export of sample "B" fails at
its very first button press (`ButtonNotFoundError`), yet it has already
overwritten `sample_name` ("A" → "B"), and a subsequent `analyze`
consumes the new name: on `fsB` it reaches the folder `exp/B` (failing
only later, inside the peak search on the empty series), whereas before
the failed export it would have failed to list the folder `exp/A`.
Line 171 assigns `self.sample_name` before the `try` body, so a failed
export does change the name consumed by `analyze`. -/
theorem claim_C9_counterexample :
    (export_run "B" (fun _ => 0) stA).1 = .error .buttonNotFound ∧
    stA.sample_name = "A" ∧
    ((export_run "B" (fun _ => 0) stA).2).sample_name = "B" ∧
    (analyze fsB ((export_run "B" (fun _ => 0) stA).2)).1 = .error .indexError ∧
    (analyze fsB stA).1 = .error .pyFileNotFound := by
  refine ⟨rfl, rfl, rfl, rfl, rfl⟩

/-- C9 amended: the `SampleName` consumed by `analyze` is the one
generated by the most recent export that passed the busy check, whether
or not that export succeeded: every such export overwrites
`sample_name` before its body runs, and `analyze` reads the current
`sample_name` to build the subfolder path. -/
theorem claim_C9_amended (nm : String) (counts : Nat → Nat)
    (st : LIBSAnalyzer) (h : st.status = AnalyzerStatus.IDLE) :
    ((export_run nm counts st).2).sample_name = nm ∧
    (∀ fs, (analyze fs st).1
       = analyzeCore fs (st.export_folder_path ++ "/" ++ st.sample_name)) := by
  constructor
  · simp [export_run, h]
  · intro fs
    simp [analyze, h]

/-- Witness for the amended C9 at the concrete failed export of the
counterexample. -/
theorem claim_C9_amended_witness :
    ((export_run "B" (fun _ => 0) stA).2).sample_name = "B" ∧
    (analyze fsB stA).1 = analyzeCore fsB (stA.export_folder_path ++ "/" ++ stA.sample_name) := by
  exact ⟨(claim_C9_amended "B" (fun _ => 0) stA rfl).1,
         (claim_C9_amended "B" (fun _ => 0) stA rfl).2 fsB⟩

/-! ## Claim C5 -/

/-- An analyzer that remembers the sample name "S". -/
def stS : LIBSAnalyzer := { st0 with sample_name := "S" }

/-- A filesystem where the export subfolder of "S" exists but holds no
file ending in `1.csv`. -/
def fsNoSpec : FS :=
  { listDir := fun p => if p = "exp/S" then some ["notes.txt"] else none
    readCsv := fun _ => none }

/-- A filesystem where the spectrum file of "S" exists but every
wavelength lies below the configured range 669-673. -/
def fsLow : FS :=
  { listDir := fun p => if p = "exp/S" then some ["a1.csv"] else none
    readCsv := fun p =>
      if p = "exp/S/a1.csv" then some [(100, 1), (200, 2)] else none }

/-- Counterexample to C5 as stated: with no matching spectrum file,
`analyze` fails with the unclassified builtin `FileNotFoundError`
(reading the empty path), not with a classified `SpectrumFileNotFound`;
with a range outside the data's coverage it fails with the unclassified
`IndexError` (empty `np.where` selection), not with a classified
`RangeOutOfData`.  No exception class of either spec name exists in the
source. -/
theorem claim_C5_counterexample :
    (analyze fsNoSpec stS).1 = .error .pyFileNotFound ∧
    (Except.error LibsError.pyFileNotFound
       : Except LibsError (List (String × ℚ)))
      ≠ .error .spectrumFileNotFound ∧
    (analyze fsLow stS).1 = .error .indexError ∧
    (Except.error LibsError.indexError
       : Except LibsError (List (String × ℚ)))
      ≠ .error .rangeOutOfData := by
  refine ⟨rfl, by simp, rfl, by simp⟩

/-- C5 amended: in both situations `analyze` does fail, but with the
host language's unclassified exceptions — a builtin file-not-found
error from `pd.read_csv('')` when no file matches the `1.csv` suffix,
and an `IndexError` from the empty index selection when a configured
range lies outside the data's wavelength coverage — since the source
defines no `SpectrumFileNotFound` or `RangeOutOfData` classes. -/
theorem claim_C5_amended :
    (∀ fs st files, st.status = AnalyzerStatus.IDLE →
       fs.listDir (st.export_folder_path ++ "/" ++ st.sample_name)
         = some files →
       files.find? (fun f => pyEndsWith f "1.csv") = none →
       fs.readCsv "" = none →
       (analyze fs st).1 = .error .pyFileNotFound) ∧
    (∀ fs path data, fs.readCsv path = some data →
       firstIdxP (fun v => 669 ≤ v) (data.map Prod.fst) = none →
       find_all_peaks fs path = .error .indexError) ∧
    (∀ fs path data, fs.readCsv path = some data →
       lastIdxP (fun v => v ≤ 673) (data.map Prod.fst) = none →
       find_all_peaks fs path = .error .indexError) := by
  refine ⟨fun fs st files h hlist hfind hread => ?_,
          fun fs path data hread hfi => ?_,
          fun fs path data hread hla => ?_⟩
  · simp [analyze, analyzeCore, h, hlist, hfind, find_all_peaks, hread]
  · simp [find_all_peaks, hread, cfgRanges, peaksFor, hfi]
  · cases hfi : firstIdxP (fun v => 669 ≤ v) (data.map Prod.fst) <;>
      simp [find_all_peaks, hread, cfgRanges, peaksFor, hfi, hla]

/-- Witness for the amended C5 at the two concrete filesystems. -/
theorem claim_C5_amended_witness :
    (analyze fsNoSpec stS).1 = .error .pyFileNotFound ∧
    find_all_peaks fsLow "exp/S/a1.csv" = .error .indexError := by
  constructor
  · exact claim_C5_amended.1 fsNoSpec stS ["notes.txt"] rfl rfl rfl rfl
  · exact claim_C5_amended.2.1 fsLow "exp/S/a1.csv" [(100, 1), (200, 2)] rfl
      (by norm_num [firstIdxP])

/-! ## Claim C3 -/

/-- A matching oracle for a screen on which nothing scores. -/
def score0 : ℚ → ℚ := fun _ => 0

/-- A location oracle reporting the origin. -/
def loc0 : ℚ → Nat × Nat := fun _ => (0, 0)

/-- A 10 × 10 screen resized at the largest scale 2.0 is 20 × 20. -/
lemma resizedDims_ten : resizedDims 10 10 2 = (20, 20) := by
  have h1 : (⌊((10 : ℕ) : ℚ) * 2⌋).toNat = 20 := by
    have h : (⌊((10 : ℕ) : ℚ) * 2⌋) = 20 := by
      push_cast
      norm_num
    rw [h]
    rfl
  have h2 : (⌊((10 : ℕ) : ℚ) * (((20 : ℕ) : ℚ) / ((10 : ℕ) : ℚ))⌋).toNat = 20 := by
    have h : (⌊((10 : ℕ) : ℚ) * (((20 : ℕ) : ℚ) / ((10 : ℕ) : ℚ))⌋) = 20 := by
      push_cast
      norm_num
    rw [h]
    rfl
  unfold resizedDims
  simp only [h1, h2]

/-- C3 evidence: with a 10 × 10 screen capture and a 100 × 100 template
the very first (largest) scale already fails the size test, the loop
records no candidate (the evaluated-scale prefix is empty), and the
locator terminates in Python's `TypeError` from unpacking
`found = None` — not in an explicit `NotFound`/`InvalidTemplate`
error. -/
theorem claim_C3_oversized_template_crash :
    locate_button_multi_scale 10 10 100 100 score0 loc0
      = .error .typeError ∧
    evaluatedScales 10 10 100 100 = [] := by
  have hbreak : locateLoop 10 10 100 100 score0 loc0 scales none = none := by
    simp [scales, locateLoop, resizedDims_ten]
  constructor
  · simp [locate_button_multi_scale, hbreak]
  · simp [evaluatedScales, scales, scaleOk, resizedDims_ten]

/-! ## Claim C6 -/

/-- The loop's bookkeeping fold over an already-extracted candidate
list: the code's update rule `found is None or max_val > found[0]`. -/
def candFold : List Cand → Option Cand → Option Cand
  | [], found => found
  | c :: rest, found =>
    candFold rest
      (match found with
       | none => some c
       | some f => if f.max_val < c.max_val then some c else some f)

/-- One bookkeeping update, as a function of the running best. -/
def mergeBest (f : Cand) : Option Cand → Option Cand
  | none => some f
  | some d => if f.max_val < d.max_val then some d else some f

/-- The scale loop with its break is the bookkeeping fold over exactly
the candidates of the evaluated-prefix of the scale list. -/
lemma locateLoop_eq_candFold (w h th tw : Nat) (score : ℚ → ℚ)
    (loc : ℚ → Nat × Nat) :
    ∀ (l : List ℚ) (found : Option Cand),
      locateLoop w h th tw score loc l found
        = candFold ((l.takeWhile (scaleOk w h th tw)).map
            (candAt w h score loc)) found := by
  intro l
  induction l with
  | nil => intro found; rfl
  | cons s rest ih =>
    intro found
    by_cases hc : (resizedDims w h s).2 < th ∨ (resizedDims w h s).1 < tw
    · simp [locateLoop, hc, scaleOk, List.takeWhile_cons, candFold]
    · simp only [locateLoop, hc, if_false, scaleOk, List.takeWhile_cons,
        decide_not, Bool.not_eq_true']
      rw [if_pos (by simp [scaleOk, hc])]
      simp only [List.map_cons, candFold]
      exact ih _

/-- Folding from a running best equals merging the running best with
the first maximal candidate of the rest. -/
lemma candFold_some :
    ∀ (l : List Cand) (f : Cand),
      candFold l (some f) = mergeBest f (firstMaxCand l) := by
  intro l
  induction l with
  | nil => intro f; rfl
  | cons c rest ih =>
    intro f
    simp only [candFold, firstMaxCand]
    cases hrest : firstMaxCand rest with
    | none =>
      by_cases hfc : f.max_val < c.max_val <;>
        simp [hfc, ih, hrest, mergeBest]
    | some d =>
      by_cases hfc : f.max_val < c.max_val <;>
        by_cases hcd : c.max_val < d.max_val <;>
          simp only [hfc, hcd, if_true, if_false, ih, hrest, mergeBest,
            if_pos, if_neg] <;>
        split_ifs <;> first
          | rfl
          | (exfalso; linarith)

/-- Folding from an empty running best selects the earliest candidate
of maximal score. -/
lemma candFold_none :
    ∀ l : List Cand, candFold l none = firstMaxCand l := by
  intro l
  cases l with
  | nil => rfl
  | cons c rest =>
    show candFold rest (some c) = firstMaxCand (c :: rest)
    rw [candFold_some]
    cases hrest : firstMaxCand rest <;>
      simp [firstMaxCand, hrest, mergeBest]

/-- C6: the locator evaluates the fixed scale list in strictly
descending order, stops at the first scale whose resized image is
smaller than the template in either dimension, and its bookkeeping
variable ends as the earliest candidate of maximal correlation score
among the evaluated scales (first candidate initializes, only a
strictly greater score replaces, ties keep the earlier and larger
scale); the returned center coordinates are computed from exactly that
winning candidate. -/
theorem claim_C6_scale_search :
    List.Chain' (fun a b : ℚ => b < a) scales ∧
    (∀ w h th tw score loc,
      locateLoop w h th tw score loc scales none
        = firstMaxCand ((evaluatedScales w h th tw).map
            (candAt w h score loc))) ∧
    (∀ w h th tw score loc,
      locate_button_multi_scale w h th tw score loc
        = match firstMaxCand ((evaluatedScales w h th tw).map
            (candAt w h score loc)) with
          | none => .error .typeError
          | some f =>
            .ok (((⌊(f.max_loc.1 : ℚ) * f.r⌋).toNat
                    + (⌊((f.max_loc.1 + tw : ℕ) : ℚ) * f.r⌋).toNat) / 2,
                 ((⌊(f.max_loc.2 : ℚ) * f.r⌋).toNat
                    + (⌊((f.max_loc.2 + th : ℕ) : ℚ) * f.r⌋).toNat) / 2)) := by
  have hsel : ∀ (w h th tw : Nat) (score : ℚ → ℚ) (loc : ℚ → Nat × Nat),
      locateLoop w h th tw score loc scales none
        = firstMaxCand ((evaluatedScales w h th tw).map
            (candAt w h score loc)) := by
    intro w h th tw score loc
    rw [locateLoop_eq_candFold, candFold_none]
    rfl
  refine ⟨?_, hsel, fun w h th tw score loc => ?_⟩
  · norm_num [scales, List.chain'_cons]
  · unfold locate_button_multi_scale
    rw [hsel]

/-! ## Claim C7 -/

/-- `firstIdxP` really is "the first index satisfying `p`": the returned
index is in bounds, satisfies `p`, and every earlier index fails `p`. -/
lemma firstIdxP_spec (p : ℚ → Bool) :
    ∀ (l : List ℚ) (i : Nat), firstIdxP p l = some i →
      i < l.length ∧ p (l.getD i 0) = true ∧
      ∀ j, j < i → p (l.getD j 0) = false := by
  intro l
  induction l with
  | nil => intro i h; simp [firstIdxP] at h
  | cons a t ih =>
    intro i h
    by_cases hpa : p a
    · simp only [firstIdxP, hpa, if_true] at h
      obtain rfl : (0 : Nat) = i := Option.some_injective _ h
      exact ⟨Nat.succ_pos _, by simpa using hpa,
        fun j hj => absurd hj (Nat.not_lt_zero j)⟩
    · cases hft : firstIdxP p t with
      | none => simp [firstIdxP, hpa, hft] at h
      | some i2 =>
        simp only [firstIdxP, hpa, if_false, hft, Option.map_some'] at h
        obtain rfl : i2 + 1 = i := Option.some_injective _ h
        obtain ⟨hlen, hp, hlt⟩ := ih i2 hft
        refine ⟨Nat.succ_lt_succ hlen, by simpa [List.getD_cons_succ] using hp, ?_⟩
        intro j hj
        cases j with
        | zero => simpa using hpa
        | succ j2 =>
          rw [List.getD_cons_succ]
          exact hlt j2 (Nat.lt_of_succ_lt_succ hj)

/-- When `lastIdxP` finds nothing, no index satisfies `p`. -/
lemma lastIdxP_none (p : ℚ → Bool) :
    ∀ l : List ℚ, lastIdxP p l = none →
      ∀ j, j < l.length → p (l.getD j 0) = false := by
  intro l
  induction l with
  | nil => intro _ j hj; simp at hj
  | cons a t ih =>
    intro h j hj
    have hnone : lastIdxP p t = none := by
      cases hlt : lastIdxP p t with
      | none => rfl
      | some k => simp [lastIdxP, hlt] at h
    have hpa : p a = false := by
      cases hb : p a with
      | false => rfl
      | true => simp [lastIdxP, hnone, hb] at h
    cases j with
    | zero => simpa using hpa
    | succ j2 =>
      rw [List.getD_cons_succ]
      exact ih hnone j2 (Nat.lt_of_succ_lt_succ hj)

/-- `lastIdxP` really is "the last index satisfying `p`". -/
lemma lastIdxP_spec (p : ℚ → Bool) :
    ∀ (l : List ℚ) (i : Nat), lastIdxP p l = some i →
      i < l.length ∧ p (l.getD i 0) = true ∧
      ∀ j, i < j → j < l.length → p (l.getD j 0) = false := by
  intro l
  induction l with
  | nil => intro i h; simp [lastIdxP] at h
  | cons a t ih =>
    intro i h
    cases hlt : lastIdxP p t with
    | some k =>
      simp only [lastIdxP, hlt] at h
      obtain rfl : k + 1 = i := Option.some_injective _ h
      obtain ⟨hlen, hp, hgt⟩ := ih k hlt
      refine ⟨Nat.succ_lt_succ hlen, by simpa [List.getD_cons_succ] using hp, ?_⟩
      intro j hkj hjlen
      cases j with
      | zero => exact absurd hkj (by omega)
      | succ j2 =>
        rw [List.getD_cons_succ]
        exact hgt j2 (Nat.lt_of_succ_lt_succ hkj) (Nat.lt_of_succ_lt_succ hjlen)
    | none =>
      cases hb : p a with
      | true =>
        simp only [lastIdxP, hlt, hb, if_true] at h
        obtain rfl : (0 : Nat) = i := Option.some_injective _ h
        refine ⟨Nat.succ_pos _, by simpa using hb, ?_⟩
        intro j hkj hjlen
        cases j with
        | zero => exact absurd hkj (by omega)
        | succ j2 =>
          rw [List.getD_cons_succ]
          exact lastIdxP_none p t hlt j2 (Nat.lt_of_succ_lt_succ hjlen)
      | false => simp [lastIdxP, hlt, hb] at h

/-- Peeling the first point off the integration slice
`y[s:e+1], x[s:e+1]`. -/
lemma slice_decomp (data : List (ℚ × ℚ)) (s e : Nat) (hse : s ≤ e)
    (hlen : e < data.length) :
    (data.drop s).take (e + 1 - s)
      = data.getD s (0, 0) :: ((data.drop (s + 1)).take (e - s)) := by
  have h1 : s < data.length := lt_of_le_of_lt hse hlen
  have hd : data.drop s = data.getD s (0, 0) :: data.drop (s + 1) := by
    rw [List.getD_eq_getElem data (0, 0) h1]
    exact List.drop_eq_getElem_cons h1
  rw [hd]
  have e1 : e + 1 - s = (e - s) + 1 := by omega
  rw [e1, List.take_succ_cons]

/-- The antiderivative-at-a-point of the straight line `a·x + b`:
trapezoids over a linear function telescope through it. -/
def lineF (a b x : ℚ) : ℚ := a * x ^ 2 / 2 + b * x

/-- Trapezoidal integration of a series that is linear in the
wavelength over the index window `[s, e]` telescopes to the difference
of `lineF` at the endpoints. -/
lemma trapzP_slice_linear (data : List (ℚ × ℚ)) (a b : ℚ) :
    ∀ (d s e : Nat), e - s = d → s ≤ e → e < data.length →
      (∀ i, s ≤ i → i ≤ e →
        (data.getD i (0, 0)).2 = a * (data.getD i (0, 0)).1 + b) →
      trapzP ((data.drop s).take (e + 1 - s))
        = lineF a b (data.getD e (0, 0)).1
            - lineF a b (data.getD s (0, 0)).1 := by
  intro d
  induction d with
  | zero =>
    intro s e hd hse hlen _hlin
    obtain rfl : s = e := by omega
    rw [slice_decomp data s s le_rfl hlen]
    have : s - s = 0 := by omega
    rw [this, List.take_zero, trapzP]
    ring
  | succ d ih =>
    intro s e hd hse hlen hlin
    have hslt : s < e := by omega
    rw [slice_decomp data s e hse hlen]
    have hih := ih (s + 1) e (by omega) (by omega) hlen
      (fun i hi1 hi2 => hlin i (by omega) hi2)
    rw [slice_decomp data (s + 1) e (by omega) hlen] at hih
    have e2 : e - s = (e - (s + 1)) + 1 := by omega
    rw [e2, show (e - (s + 1)) + 1 = e + 1 - (s + 1) from by omega,
        slice_decomp data (s + 1) e (by omega) hlen, trapzP, hih]
    have hs := hlin s le_rfl (le_of_lt hslt)
    have hs1 := hlin (s + 1) (by omega) (by omega)
    rw [hs, hs1]
    unfold lineF
    ring

/-- C7: `find_all_peaks` selects the first index with wavelength at
least the range start and the last index with wavelength at most the
range end, and records the trapezoidal integral of the intensity over
that window minus the trapezoidal area of the straight baseline through
the endpoint intensities; consequently any intensity series that is
linear in the wavelength over the window yields a corrected area of
exactly 0. -/
theorem claim_C7_peak_area :
    (∀ (p : ℚ → Bool) (l : List ℚ) (i : Nat), firstIdxP p l = some i →
       i < l.length ∧ p (l.getD i 0) = true ∧
       ∀ j, j < i → p (l.getD j 0) = false) ∧
    (∀ (p : ℚ → Bool) (l : List ℚ) (i : Nat), lastIdxP p l = some i →
       i < l.length ∧ p (l.getD i 0) = true ∧
       ∀ j, i < j → j < l.length → p (l.getD j 0) = false) ∧
    (∀ (data : List (ℚ × ℚ)) (start stop : ℚ) (s e : Nat),
       firstIdxP (fun v => start ≤ v) (data.map Prod.fst) = some s →
       lastIdxP (fun v => v ≤ stop) (data.map Prod.fst) = some e →
       peaksFor data [(start, stop)]
         = .ok [(rangeLabel start stop, peakAreaOn data s e)]) ∧
    (∀ (data : List (ℚ × ℚ)) (s e : Nat) (a b : ℚ), s ≤ e →
       e < data.length →
       (∀ i, s ≤ i → i ≤ e →
         (data.getD i (0, 0)).2 = a * (data.getD i (0, 0)).1 + b) →
       peakAreaOn data s e = 0) := by
  refine ⟨firstIdxP_spec, lastIdxP_spec,
    fun data start stop s e hfi hla => by
      simp only [peaksFor, hfi, hla]
      rfl,
    fun data s e a b hse hlen hlin => ?_⟩
  simp only [peakAreaOn]
  rw [trapzP_slice_linear data a b (e - s) s e rfl hse hlen hlin]
  rw [hlin s le_rfl hse, hlin e hse le_rfl]
  unfold lineF
  ring

/-- A synthetic linear ramp: intensity `= wavelength - 668` on a grid
covering the configured range 669-673 (selected window: indices 1 to
5). -/
def dataLin : List (ℚ × ℚ) :=
  [(668, 0), (669, 1), (670, 2), (671, 3), (672, 4), (673, 5), (674, 6)]

/-- Witness for C7 on the synthetic ramp: the configured range selects
indices 1..5 and the baseline-corrected area of the ramp is 0. -/
theorem claim_C7_peak_area_witness :
    peaksFor dataLin [(669, 673)]
      = .ok [(rangeLabel 669 673, peakAreaOn dataLin 1 5)] ∧
    peakAreaOn dataLin 1 5 = 0 := by
  constructor
  · exact claim_C7_peak_area.2.2.1 dataLin 669 673 1 5
      (by norm_num [dataLin, firstIdxP]) (by norm_num [dataLin, lastIdxP])
  · exact claim_C7_peak_area.2.2.2 dataLin 1 5 1 (-668)
      (by norm_num) (by norm_num [dataLin])
      (by
        intro i h1 h2
        interval_cases i <;> norm_num [dataLin])

end LIBS


